import Mathlib

/-!
# DealSmart AI Communications Hub — verification of the specified orchestration core

This development embeds the orchestration layer of the DealSmart AI
Communications Hub (conversation state machine, AI suggestion engine,
CRM sync adapter, billing webhook processor, retry executor, idempotency
ledger) together with the two concrete artifacts shipped in the repository
(`infra/wait-for.sh` and the API info route handler), and proves the
testable properties stated in the design documentation.
-/

namespace DealSmart

/-! ## Conversation State Machine (§4.3) -/

/-- Conversation status. `open_` stands for the spec's `open`
(`open` is a Lean keyword). -/
inductive ConvStatus where
  | open_
  | pending
  | resolved
deriving DecidableEq, Repr

/-- Message sender kinds. -/
inductive Sender where
  | customer
  | staff
  | ai
deriving DecidableEq, Repr

/-- A message in a conversation thread. -/
structure Message where
  sender : Sender
  body : String
deriving DecidableEq, Repr

/-- Modelled from the spec: the Conversation entity of §3 (the repository
ships no conversation code, only its design documents). -/
structure Conversation where
  id : Nat
  status : ConvStatus
  assigned : Option Nat
  messages : List Message
deriving DecidableEq, Repr

/-- Error taxonomy for state-machine operations (§7). -/
inductive ConvError where
  | invalidTransition
  | conflict
deriving DecidableEq, Repr

/-- Modelled from the spec: `transition(newStatus, actor)` of §4.3.
Allowed edges: `open → pending`, `pending → open`, `open/pending →
resolved` (explicit close, only when assigned, per the §3 invariant that
an unassigned conversation cannot be resolved); every edge out of
`resolved` is rejected with `InvalidTransition`. -/
def transition (c : Conversation) (tgt : ConvStatus) : Except ConvError Conversation :=
  match c.status, tgt with
  | .open_, .pending => .ok { c with status := tgt }
  | .pending, .open_ => .ok { c with status := tgt }
  | .open_, .resolved =>
      if c.assigned.isSome then .ok { c with status := tgt } else .error .conflict
  | .pending, .resolved =>
      if c.assigned.isSome then .ok { c with status := tgt } else .error .conflict
  | _, _ => .error .invalidTransition

/-- Modelled from the spec: the explicit reopen of §4.3, the only
staff-side way out of `resolved`; it re-enters `open`. -/
def reopen (c : Conversation) : Except ConvError Conversation :=
  match c.status with
  | .resolved => .ok { c with status := .open_ }
  | _ => .error .invalidTransition

/-- Modelled from the spec: `assign(staffId)` of §4.3 — fails with
Conflict if the conversation is resolved. -/
def assign (c : Conversation) (staffId : Nat) : Except ConvError Conversation :=
  match c.status with
  | .resolved => .error .conflict
  | _ => .ok { c with assigned := some staffId }

/-- Modelled from the spec: `appendMessage(sender, body)` of §4.3 —
appends the message; a new customer message on a `resolved` conversation
automatically reopens it to `pending`. -/
def appendMessage (c : Conversation) (sender : Sender) (body : String) : Conversation :=
  let c' := { c with messages := c.messages ++ [⟨sender, body⟩] }
  match c.status, sender with
  | .resolved, .customer => { c' with status := .pending }
  | _, _ => c'

/-- The operations of the Conversation State Machine, as a single step
alphabet for whole-path statements. -/
inductive ConvOp where
  | trans (tgt : ConvStatus)
  | reopenOp
  | assignOp (staffId : Nat)
  | message (sender : Sender) (body : String)
deriving DecidableEq, Repr

/-- One step of the Conversation State Machine. -/
def applyOp (c : Conversation) : ConvOp → Except ConvError Conversation
  | .trans tgt => transition c tgt
  | .reopenOp => reopen c
  | .assignOp s => assign c s
  | .message s b => .ok (appendMessage c s b)

/-! ## AI Suggestion Engine (§4.4) -/

/-- A numeric (price/inventory/quantity) token: non-empty and all digits. -/
def isNumericToken (t : String) : Bool :=
  t.data ≠ [] && t.data.all Char.isDigit

/-- Modelled from the spec: the conversation context supplied to
`suggest` — the conversation's own message history plus explicitly
supplied structured facts, both as token lists (§4.4). -/
structure ConversationContext where
  messageTokens : List (List String)
  factTokens : List (List String)
deriving Repr

/-- All tokens present in the supplied input context. -/
def contextTokens (ctx : ConversationContext) : List String :=
  (ctx.messageTokens ++ ctx.factTokens).flatten

/-- Modelled from the spec: the suggestion result `{text, confidence,
flags}` of §4.4, with the boolean `needs-clarification` flag and the
uncertainty flag of §8. -/
structure Suggestion where
  text : List String
  needsClarification : Bool
  uncertaintyFlag : Bool
deriving DecidableEq, Repr

/-- Does every numeric token of the draft appear in the input context? -/
def draftTraceable (ctx : ConversationContext) (draft : List String) : Bool :=
  (draft.filter isNumericToken).all (fun t => (contextTokens ctx).contains t)

/-- Modelled from the spec: the output-validation rule of §4.4 applied by
`suggest` to the provider draft before it is returned — any numeric
price/inventory token in the output must be traceable to a token present
in the input context, else the suggestion is downgraded to "needs
clarification" and the uncertainty flag is set. The raw provider draft is
a parameter (the provider call itself is an external collaborator). -/
def suggest (ctx : ConversationContext) (providerDraft : List String) : Suggestion :=
  if draftTraceable ctx providerDraft then
    { text := providerDraft, needsClarification := false, uncertaintyFlag := false }
  else
    { text := providerDraft, needsClarification := true, uncertaintyFlag := true }

/-! ## Billing Webhook Processor and Idempotency Ledger (§4.2, §4.6) -/

/-- Subscription status (§3). -/
inductive SubStatus where
  | active
  | cancelled
  | expired
  | pastDue
deriving DecidableEq, Repr

/-- Billing provider event kinds (§4.6 step 3). -/
inductive BillingEventKind where
  | paymentSucceeded
  | paymentFailed
  | subscriptionCreated
  | subscriptionUpdated
  | subscriptionCancelled
deriving DecidableEq, Repr

/-- Modelled from the spec: an inbound billing webhook event — globally
unique event id and provider event timestamp (§6), plus the payload
fields projected onto SubscriptionState. -/
structure BillingEvent where
  eventId : String
  timestamp : Nat
  kind : BillingEventKind
  tier : String
  renewal : Bool
deriving DecidableEq, Repr

/-- Modelled from the spec: the SubscriptionState projection of §3,
carrying the last applied provider-event id and timestamp for
idempotency and ordering. -/
structure SubscriptionState where
  subscriptionId : String
  status : SubStatus
  tier : String
  renewal : Bool
  lastAppliedTs : Nat
  lastAppliedEventId : String
deriving DecidableEq, Repr

/-- Subscription status resulting from a billing event kind. -/
def statusFor : BillingEventKind → SubStatus
  | .paymentSucceeded => .active
  | .paymentFailed => .pastDue
  | .subscriptionCreated => .active
  | .subscriptionUpdated => .active
  | .subscriptionCancelled => .cancelled

/-- Modelled from the spec: the single atomic conditional write of §5 —
apply only if the incoming event timestamp ≥ the stored last-applied
timestamp, otherwise leave the state untouched (last-event-wins by
provider timestamp, §4.6 step 3). -/
def applyEvent (s : SubscriptionState) (e : BillingEvent) : SubscriptionState :=
  if s.lastAppliedTs ≤ e.timestamp then
    { s with status := statusFor e.kind, tier := e.tier, renewal := e.renewal,
             lastAppliedTs := e.timestamp, lastAppliedEventId := e.eventId }
  else s

/-- Ledger outcome recorded at commit (§4.2). -/
inductive LedgerOutcome where
  | success
  | failed
deriving DecidableEq, Repr

/-- Modelled from the spec: the state touched by the Billing Webhook
Processor — the Idempotency Ledger (committed entries keyed by provider
event id) and the SubscriptionState row. -/
structure WebhookState where
  ledger : List (String × LedgerOutcome)
  sub : SubscriptionState
deriving DecidableEq, Repr

/-- Has the event id already been committed in the ledger? This is the
observe side of `reserve(eventId)` (§4.2). -/
def alreadyProcessed (st : WebhookState) (eventId : String) : Bool :=
  st.ledger.any (fun entry => entry.1 == eventId)

/-- Number of committed ledger entries for an event id. -/
def countCommits (st : WebhookState) (eventId : String) : Nat :=
  (st.ledger.filter (fun entry => entry.1 == eventId)).length

/-- Modelled from the spec: the provider signature over the raw body,
a stand-in for the provider's HMAC (§6). -/
def computeSignature (secret : String) (e : BillingEvent) : String :=
  secret ++ ":" ++ e.eventId ++ ":" ++ toString e.timestamp

/-- Signature verification against the provider secret (§4.6 step 1). -/
def verifySignature (secret : String) (e : BillingEvent) (sig : String) : Bool :=
  sig == computeSignature secret e

/-- Webhook processing result (§4.6). -/
inductive HandleResult where
  | accepted
  | rejected
deriving DecidableEq, Repr

/-- Modelled from the spec: `handle(rawPayload, signatureHeader)` of
§4.6. (1) verify the signature — failure is a terminal Rejected, no
ledger entry, no processing; (2) reserve the event id — if already
processed return Accepted without reapplying; (3) apply the idempotent
conditional state transition; (4) commit the event id. -/
def handle (secret : String) (st : WebhookState) (e : BillingEvent) (sig : String) :
    HandleResult × WebhookState :=
  if verifySignature secret e sig then
    if alreadyProcessed st e.eventId then
      (.accepted, st)
    else
      (.accepted,
        { ledger := (e.eventId, LedgerOutcome.success) :: st.ledger,
          sub := applyEvent st.sub e })
  else
    (.rejected, st)

/-! ## CRM Sync Adapter (§4.5) -/

/-- SyncAttempt outcome (§3). -/
inductive SyncOutcome where
  | success
  | failed
  | skipped
deriving DecidableEq, Repr

/-- Modelled from the spec: the SyncAttempt audit record of §3 —
external-system name, domain-entity reference, outcome, attempt count
and last error. -/
structure SyncAttempt where
  system : String
  entityId : Nat
  outcome : SyncOutcome
  attempts : Nat
  lastError : Option String
deriving DecidableEq, Repr

/-- Result of the wrapped, retried CRM provider call, as observed by the
adapter: either success or terminal failure after exhausted retries. -/
inductive CrmCallResult where
  | ok
  | terminalFailure (err : String) (attempts : Nat)
deriving DecidableEq, Repr

/-- Modelled from the spec: recording an inbound/outbound message (the
triggering domain action) followed by the CRM Sync Adapter's
`logActivity` fire-and-forget call (§4.5, §5). The primary mutation is
performed first; the sync outcome only appends a SyncAttempt audit
record carrying the triggering entity id and never alters the primary
result. -/
def recordMessageAndSync (c : Conversation) (sender : Sender) (body : String)
    (log : List SyncAttempt) (crm : CrmCallResult) :
    Conversation × List SyncAttempt :=
  let c' := appendMessage c sender body
  match crm with
  | .ok =>
      (c', log ++ [⟨"hubspot", c.id, .success, 1, none⟩])
  | .terminalFailure err n =>
      (c', log ++ [⟨"hubspot", c.id, .failed, n, some err⟩])

/-! ## Retry Executor (§4.1) -/

/-- Modelled from the spec: the retry policy of §4.1 — timeout (5–30s),
max attempts (default 3), base delay and a jittered exponential backoff
multiplier. Jitter is an arbitrary per-attempt perturbation. -/
structure RetryPolicy where
  timeoutMs : Nat
  maxAttempts : Nat := 3
  baseDelay : Nat
  multiplier : Nat
  jitter : Nat → Nat

/-- Outcome of a single attempt as classified by the executor (§4.1):
success, transient failure (timeout, 5xx, network reset — retried), or
non-retryable failure (4xx validation, auth — surfaces immediately). -/
inductive AttemptOutcome where
  | success
  | transient
  | nonRetryable
deriving DecidableEq, Repr

/-- Terminal result of `execute` (§4.1), carrying the attempt count. -/
inductive RetryResult where
  | ok (attempts : Nat)
  | exhausted (attempts : Nat)
  | fatal (attempts : Nat)
deriving DecidableEq, Repr

/-- The backoff delay slept after the (k+1)-th failed attempt:
base delay times the exponential multiplier, plus jitter. -/
def delayFor (p : RetryPolicy) (k : Nat) : Nat :=
  p.baseDelay * p.multiplier ^ k + p.jitter k

/-- Modelled from the spec: the retry loop of §4.1. `made` attempts were
already made and `remaining` may still be made; the operation is a
function from the 1-based attempt number to its classified outcome.
Returns the terminal result and the list of backoff delays slept between
consecutive attempts, in order. -/
def executeLoop (p : RetryPolicy) (op : Nat → AttemptOutcome) :
    Nat → Nat → RetryResult × List Nat
  | made, 0 => (.exhausted made, [])
  | made, r + 1 =>
    match op (made + 1) with
    | .success => (.ok (made + 1), [])
    | .nonRetryable => (.fatal (made + 1), [])
    | .transient =>
      match r with
      | 0 => (.exhausted (made + 1), [])
      | r' + 1 =>
        let rest := executeLoop p op (made + 1) (r' + 1)
        (rest.1, delayFor p made :: rest.2)

/-- Modelled from the spec: `execute(operation, policy)` of §4.1. -/
def execute (p : RetryPolicy) (op : Nat → AttemptOutcome) : RetryResult × List Nat :=
  executeLoop p op 0 p.maxAttempts

/-! ## `infra/wait-for.sh`

The retry wait loop shipped in the repository. `ready i` is the result
of the `nc -z` probe number `i + 1`; `attempt` counts failed probes so
far, exactly as the shell variable does. -/

/-- Result of the wait loop: ready after `probes` probes (exit 0), or
not ready, reporting `reported` attempts after `probes` failed probes
(exit 1). -/
inductive WaitResult where
  | isReady (probes : Nat)
  | notReady (reported : Nat) (probes : Nat)
deriving DecidableEq, Repr

/-- The `while ! nc -z ...` loop of `wait-for.sh` (lines 14–27): probe;
on success exit 0; on failure increment `attempt` and exit 1 once
`attempt >= max_attempts`, else sleep and loop. -/
def waitFrom (ready : Nat → Bool) (maxAttempts : Nat) (attempt : Nat) : WaitResult :=
  if ready attempt then
    .isReady (attempt + 1)
  else if maxAttempts ≤ attempt + 1 then
    .notReady maxAttempts (attempt + 1)
  else
    waitFrom ready maxAttempts (attempt + 1)
termination_by maxAttempts - attempt
decreasing_by
  omega

/-- The wait loop started with `attempt=0`, as in the script. -/
def waitFor (ready : Nat → Bool) (maxAttempts : Nat) : WaitResult :=
  waitFrom ready maxAttempts 0

/-- Whole-script result: usage error (exit 1, no probe performed), or
the wait loop's result. -/
inductive ScriptResult where
  | usage
  | ran (r : WaitResult)
deriving DecidableEq, Repr

/-- Exit status of the script: 1 for usage errors and exhausted
attempts, 0 when the target is ready. -/
def exitCode : ScriptResult → Nat
  | .usage => 1
  | .ran (.isReady _) => 0
  | .ran (.notReady _ _) => 1

/-- `wait-for.sh` end to end (lines 4–31): take host, port and an
optional `max_attempts` defaulting to 10; if host or port is empty or
missing, print usage and exit 1 before any probe; otherwise run the
wait loop. -/
def waitForScript (host port : String) (maxArg : Option Nat) (ready : Nat → Bool) :
    ScriptResult :=
  let maxAttempts := maxArg.getD 10
  if host = "" ∨ port = "" then .usage
  else .ran (waitFor ready maxAttempts)

/-! ## API info route (src/unnamed/part_000) -/

/-- The `endpoints` object of the API info JSON body. -/
structure ApiEndpoints where
  status : String
  migrations : String
deriving DecidableEq, Repr

/-- The JSON body returned by the API info route. -/
structure ApiInfo where
  versions : List String
  endpoints : ApiEndpoints
deriving DecidableEq, Repr

/-- The GET handler of the API info route: it takes no request data,
reads no state and performs no mutation, so over any ambient state type
it is the pure state-passing function returning the literal body. -/
def GET {S : Type} (s : S) : ApiInfo × S :=
  ({ versions := ["v1"],
     endpoints := { status := "/api/v1/status", migrations := "/api/v1/migrations" } }, s)

/-! ## Theorems -/

/-- C1: every AI suggestion returned by `suggest` is safe — any numeric
price/inventory/quantity token appearing in the output text also appears
as a token in the supplied input context (conversation messages plus
structured facts); if some numeric token is not present in the input,
the suggestion has been downgraded to needs-clarification and the
uncertainty flag has been set before the result was returned. -/
theorem suggest_price_tokens_traceable (ctx : ConversationContext)
    (draft : List String) (t : String)
    (ht : t ∈ (suggest ctx draft).text) (hnum : isNumericToken t = true) :
    t ∈ contextTokens ctx ∨
      ((suggest ctx draft).needsClarification = true ∧
        (suggest ctx draft).uncertaintyFlag = true) := by
  by_cases h : draftTraceable ctx draft = true
  · left
    have htext : (suggest ctx draft).text = draft := by simp [suggest, h]
    rw [htext] at ht
    have hall := h
    unfold draftTraceable at hall
    rw [List.all_eq_true] at hall
    have hmem := hall t (List.mem_filter.mpr ⟨ht, hnum⟩)
    simpa using hmem
  · right
    simp [suggest, h]

/-- Witness for C1 at a concrete context and draft: the numeric token of
the draft is present in the supplied context. -/
theorem suggest_price_tokens_traceable_witness :
    ("12000" ∈ (suggest ⟨[["price", "12000"]], []⟩ ["12000", "works"]).text ∧
      isNumericToken ("12000") = true) ∧
    ("12000" ∈ contextTokens ⟨[["price", "12000"]], []⟩ ∨
      ((suggest ⟨[["price", "12000"]], []⟩ ["12000", "works"]).needsClarification = true ∧
        (suggest ⟨[["price", "12000"]], []⟩ ["12000", "works"]).uncertaintyFlag = true)) :=
  ⟨⟨by decide, by decide⟩,
    suggest_price_tokens_traceable _ _ _ (by decide) (by decide)⟩

/-- C3: SubscriptionState updates are monotone in the provider-event
timestamp — an event strictly older than the stored last-applied
timestamp is not applied, and an older-timestamped event arriving after
a newer one leaves the newer SubscriptionState untouched. -/
theorem applyEvent_timestamp_monotone (s : SubscriptionState)
    (e e1 e2 : BillingEvent) :
    (e.timestamp < s.lastAppliedTs → applyEvent s e = s) ∧
    (s.lastAppliedTs ≤ e1.timestamp → e2.timestamp < e1.timestamp →
      applyEvent (applyEvent s e1) e2 = applyEvent s e1) := by
  constructor
  · intro h
    unfold applyEvent
    rw [if_neg (by omega)]
  · intro h1 h2
    have ha : applyEvent s e1 =
        { s with status := statusFor e1.kind, tier := e1.tier, renewal := e1.renewal,
                 lastAppliedTs := e1.timestamp, lastAppliedEventId := e1.eventId } := by
      unfold applyEvent
      rw [if_pos h1]
    rw [ha]
    unfold applyEvent
    rw [if_neg (by simp; omega)]

/-- Witness for C3: a newer event (timestamp 10) applied first, then an
older one (timestamp 4), leaves the state produced by the newer event. -/
theorem applyEvent_timestamp_monotone_witness :
    ((3 : Nat) ≤ 10 ∧ (4 : Nat) < 10) ∧
    applyEvent
        (applyEvent ⟨"sub_1", SubStatus.active, "basic", true, 3, "evt_0"⟩
          ⟨"evt_new", 10, BillingEventKind.subscriptionCancelled, "basic", false⟩)
        ⟨"evt_old", 4, BillingEventKind.paymentSucceeded, "basic", true⟩ =
      applyEvent ⟨"sub_1", SubStatus.active, "basic", true, 3, "evt_0"⟩
        ⟨"evt_new", 10, BillingEventKind.subscriptionCancelled, "basic", false⟩ :=
  ⟨⟨by decide, by decide⟩,
    (applyEvent_timestamp_monotone ⟨"sub_1", SubStatus.active, "basic", true, 3, "evt_0"⟩
        ⟨"evt_old", 4, BillingEventKind.paymentSucceeded, "basic", true⟩
        ⟨"evt_new", 10, BillingEventKind.subscriptionCancelled, "basic", false⟩
        ⟨"evt_old", 4, BillingEventKind.paymentSucceeded, "basic", true⟩).2
      (by decide) (by decide)⟩

/-- C5: terminal CRM sync failure never fails or rolls back the
triggering domain action — the recorded conversation is exactly the one
produced by `appendMessage` alone, identical to the successful-sync
case, and a `failed` SyncAttempt carrying the triggering entity id is
appended to the audit log. -/
theorem crm_failure_preserves_primary (c : Conversation) (sender : Sender)
    (body err : String) (log : List SyncAttempt) (n : Nat) :
    (recordMessageAndSync c sender body log (.terminalFailure err n)).1 =
        appendMessage c sender body ∧
    (recordMessageAndSync c sender body log (.terminalFailure err n)).1 =
        (recordMessageAndSync c sender body log .ok).1 ∧
    (recordMessageAndSync c sender body log (.terminalFailure err n)).2 =
        log ++ [⟨"hubspot", c.id, .failed, n, some err⟩] :=
  ⟨rfl, rfl, rfl⟩

/-- C6: a webhook payload whose signature fails verification is
terminally rejected with no ledger entry and no partial processing —
the whole webhook state (ledger and SubscriptionState) is unchanged. -/
theorem handle_bad_signature_rejected (secret : String) (st : WebhookState)
    (e : BillingEvent) (sig : String)
    (h : verifySignature secret e sig = false) :
    handle secret st e sig = (.rejected, st) := by
  simp [handle, h]

/-- Witness for C6 at a concrete payload with a wrong signature header. -/
theorem handle_bad_signature_rejected_witness :
    verifySignature ("whsec") ⟨"evt_9", 7, BillingEventKind.paymentFailed, "basic", true⟩
        ("bad_signature") = false ∧
    handle ("whsec")
        ⟨[], ⟨"sub_9", SubStatus.active, "basic", true, 0, "evt_0"⟩⟩
        ⟨"evt_9", 7, BillingEventKind.paymentFailed, "basic", true⟩ ("bad_signature") =
      (.rejected, ⟨[], ⟨"sub_9", SubStatus.active, "basic", true, 0, "evt_0"⟩⟩) :=
  ⟨by decide,
    handle_bad_signature_rejected ("whsec")
      ⟨[], ⟨"sub_9", SubStatus.active, "basic", true, 0, "evt_0"⟩⟩
      ⟨"evt_9", 7, BillingEventKind.paymentFailed, "basic", true⟩ ("bad_signature")
      (by decide)⟩

/-- Helper: an event id that the ledger has not processed has no
committed entries. -/
theorem countCommits_eq_zero (st : WebhookState) (eid : String)
    (h : alreadyProcessed st eid = false) : countCommits st eid = 0 := by
  unfold alreadyProcessed at h
  rw [List.any_eq_false] at h
  unfold countCommits
  rw [List.filter_eq_nil_iff.mpr h]
  rfl

/-- C2: webhook processing is idempotent per event id — after a first
delivery of a fresh, correctly signed event, a second delivery of the
same event returns Accepted with the webhook state (ledger and
SubscriptionState) unchanged, and exactly one ledger commit for the
event id exists after either delivery. -/
theorem handle_idempotent_second_delivery (secret : String) (st : WebhookState)
    (e : BillingEvent) (sig : String)
    (hsig : verifySignature secret e sig = true)
    (hfresh : alreadyProcessed st e.eventId = false) :
    (handle secret st e sig).1 = .accepted ∧
    handle secret (handle secret st e sig).2 e sig =
      (.accepted, (handle secret st e sig).2) ∧
    countCommits (handle secret st e sig).2 e.eventId = 1 ∧
    countCommits (handle secret (handle secret st e sig).2 e sig).2 e.eventId = 1 := by
  have h1 : handle secret st e sig =
      (.accepted,
        { ledger := (e.eventId, LedgerOutcome.success) :: st.ledger,
          sub := applyEvent st.sub e }) := by
    simp [handle, hsig, hfresh]
  have hproc : alreadyProcessed
      { ledger := (e.eventId, LedgerOutcome.success) :: st.ledger,
        sub := applyEvent st.sub e } e.eventId = true := by
    simp [alreadyProcessed]
  have h2 : handle secret (handle secret st e sig).2 e sig =
      (.accepted, (handle secret st e sig).2) := by
    rw [h1]
    simp [handle, hsig, hproc]
  have hone : countCommits
      { ledger := (e.eventId, LedgerOutcome.success) :: st.ledger,
        sub := applyEvent st.sub e } e.eventId = 1 := by
    have hz := countCommits_eq_zero st e.eventId hfresh
    unfold countCommits at hz ⊢
    simp [List.filter_cons, hz]
  refine ⟨by rw [h1], h2, by rw [h1]; exact hone, ?_⟩
  rw [h2, h1]
  exact hone

/-- Witness for C2 at a concrete fresh event with a valid signature. -/
theorem handle_idempotent_second_delivery_witness :
    (verifySignature ("sec")
        ⟨"evt_123", 5, BillingEventKind.paymentSucceeded, "gold", true⟩
        ("sec:evt_123:5") = true ∧
      alreadyProcessed ⟨[], ⟨"sub_1", SubStatus.active, "basic", true, 0, "evt_0"⟩⟩
        ("evt_123") = false) ∧
    countCommits
        (handle ("sec") ⟨[], ⟨"sub_1", SubStatus.active, "basic", true, 0, "evt_0"⟩⟩
          ⟨"evt_123", 5, BillingEventKind.paymentSucceeded, "gold", true⟩
          ("sec:evt_123:5")).2 ("evt_123") = 1 :=
  ⟨⟨by decide, by decide⟩,
    (handle_idempotent_second_delivery ("sec")
        ⟨[], ⟨"sub_1", SubStatus.active, "basic", true, 0, "evt_0"⟩⟩
        ⟨"evt_123", 5, BillingEventKind.paymentSucceeded, "gold", true⟩
        ("sec:evt_123:5") (by decide) (by decide)).2.2.1⟩

/-- C4 counterexample: a new customer message on a resolved conversation
is a transition out of `resolved` that is not the explicit reopen, and
it lands in `pending`, not in `open` — refuting both "no transition out
of resolved except an explicit reopen" and "reopening always lands in
open" as stated. -/
theorem resolved_customer_message_counterexample :
    (appendMessage ⟨1, ConvStatus.resolved, some 7, []⟩ Sender.customer
        ("is the car still available?")).status = ConvStatus.pending ∧
    ConvStatus.pending ≠ ConvStatus.resolved ∧
    ConvStatus.pending ≠ ConvStatus.open_ :=
  ⟨rfl, by decide, by decide⟩

/-- C4 (amended): `resolved` is entered only from `open` or `pending`;
the only transitions out of `resolved` are the explicit reopen, which
lands in `open`, and a new customer message, which automatically reopens
to `pending`; the explicit reopen always lands in `open`. -/
theorem resolved_transitions_amended (c c' : Conversation) (op : ConvOp)
    (h : applyOp c op = .ok c') :
    (c'.status = .resolved → c.status ≠ .resolved →
      c.status = .open_ ∨ c.status = .pending) ∧
    (c.status = .resolved →
      c'.status = .resolved ∨ (op = .reopenOp ∧ c'.status = .open_) ∨
      (∃ body, op = ConvOp.message .customer body ∧ c'.status = .pending)) ∧
    (op = .reopenOp → c'.status = .open_) := by
  refine ⟨?_, ?_, ?_⟩
  · intro _ hne
    cases hs : c.status with
    | open_ => exact Or.inl rfl
    | pending => exact Or.inr rfl
    | resolved => exact absurd hs hne
  · intro hres
    cases op with
    | trans tgt =>
      cases tgt <;> simp [applyOp, transition, hres] at h
    | reopenOp =>
      simp [applyOp, reopen, hres] at h
      refine Or.inr (Or.inl ⟨rfl, ?_⟩)
      rw [← h]
    | assignOp s =>
      simp [applyOp, assign, hres] at h
    | message s b =>
      cases s with
      | customer =>
        refine Or.inr (Or.inr ⟨b, rfl, ?_⟩)
        simp [applyOp, appendMessage, hres] at h
        rw [← h]
      | staff =>
        refine Or.inl ?_
        simp [applyOp, appendMessage, hres] at h
        rw [← h]
      | ai =>
        refine Or.inl ?_
        simp [applyOp, appendMessage, hres] at h
        rw [← h]
  · intro hop
    subst hop
    cases hs : c.status with
    | resolved =>
      simp [applyOp, reopen, hs] at h
      rw [← h]
    | open_ => simp [applyOp, reopen, hs] at h
    | pending => simp [applyOp, reopen, hs] at h

/-- Witness for C4 (amended): the explicit reopen of a concrete resolved
conversation lands in `open`. -/
theorem resolved_transitions_amended_witness :
    applyOp ⟨2, ConvStatus.resolved, some 3, []⟩ ConvOp.reopenOp =
      .ok ⟨2, ConvStatus.open_, some 3, []⟩ ∧
    (⟨2, ConvStatus.open_, some 3, []⟩ : Conversation).status = ConvStatus.open_ :=
  ⟨rfl,
    (resolved_transitions_amended ⟨2, ConvStatus.resolved, some 3, []⟩
        ⟨2, ConvStatus.open_, some 3, []⟩ ConvOp.reopenOp rfl).2.2 rfl⟩

/-- C7: under the default policy (max attempts 3) an operation that
fails transiently on the first two attempts and succeeds on the third
returns success with attempt count 3, and the two backoff delays slept
between consecutive attempts are strictly increasing (jittered
exponential backoff ordering). -/
theorem execute_succeeds_third_attempt (p : RetryPolicy) (op : Nat → AttemptOutcome)
    (hmax : p.maxAttempts = 3)
    (h1 : op 1 = .transient) (h2 : op 2 = .transient) (h3 : op 3 = .success)
    (hm : 2 ≤ p.multiplier)
    (hj : ∀ k, p.jitter k < p.baseDelay * p.multiplier ^ k) :
    execute p op = (.ok 3, [delayFor p 0, delayFor p 1]) ∧
      delayFor p 0 < delayFor p 1 := by
  constructor
  · unfold execute
    rw [hmax]
    show executeLoop p op 0 (2 + 1) = _
    simp only [executeLoop]
    norm_num [h1, h2, h3]
    have hstep : executeLoop p op 2 1 = (.ok 3, []) := by
      rw [executeLoop]
      rw [h3]
    rw [hstep]
    exact ⟨rfl, rfl⟩
  · have hj0 := hj 0
    have hj1 := hj 1
    unfold delayFor
    have e0 : p.multiplier ^ 0 = 1 := pow_zero _
    have e1 : p.multiplier ^ 1 = p.multiplier := pow_one _
    rw [e0, e1]
    rw [e0] at hj0
    have hbm : p.baseDelay * 2 ≤ p.baseDelay * p.multiplier :=
      Nat.mul_le_mul_left _ hm
    omega

/-- Witness for C7: a concrete policy (timeout 10s, max attempts 3, base
delay 100, multiplier 2, zero jitter) and an operation succeeding on the
third attempt. -/
theorem execute_succeeds_third_attempt_witness :
    execute ⟨10000, 3, 100, 2, fun _ => 0⟩
        (fun n => if n = 3 then .success else .transient) =
      (.ok 3, [delayFor ⟨10000, 3, 100, 2, fun _ => 0⟩ 0,
               delayFor ⟨10000, 3, 100, 2, fun _ => 0⟩ 1]) ∧
      delayFor ⟨10000, 3, 100, 2, fun _ => 0⟩ 0 <
        delayFor ⟨10000, 3, 100, 2, fun _ => 0⟩ 1 :=
  execute_succeeds_third_attempt ⟨10000, 3, 100, 2, fun _ => 0⟩
    (fun n => if n = 3 then .success else .transient) rfl (by decide) (by decide)
    (by decide) (by decide) (fun k => Nat.mul_pos (by decide) (pow_pos (by decide) k))

/-- Helper: when the probe never succeeds and at least one attempt is
allowed, the wait loop started at `attempt = a < m` fails after probing
up to attempt `m`, reporting `m` attempts. -/
theorem waitFrom_never_ready (ready : Nat → Bool) (h : ∀ i, ready i = false)
    (m : Nat) : ∀ d a, m - a = d → a < m → waitFrom ready m a = .notReady m m := by
  intro d
  induction d with
  | zero =>
    intro a hd ha
    omega
  | succ d ih =>
    intro a hd ha
    unfold waitFrom
    rw [h a]
    simp only [Bool.false_eq_true, if_false]
    by_cases hle : m ≤ a + 1
    · rw [if_pos hle]
      have hma : a + 1 = m := by omega
      rw [hma]
    · rw [if_neg hle]
      exact ih (a + 1) (by omega) (by omega)

/-- Helper: when some probe with index below `m` succeeds, the wait loop
exits ready after at most `m` probes. -/
theorem waitFrom_ready_within (ready : Nat → Bool) (m : Nat) :
    ∀ d a, m - a = d → (∃ k, a ≤ k ∧ k < m ∧ ready k = true) →
      ∃ n, n ≤ m ∧ waitFrom ready m a = .isReady n := by
  intro d
  induction d with
  | zero =>
    intro a hd hex
    obtain ⟨k, hak, hkm, _⟩ := hex
    omega
  | succ d ih =>
    intro a hd hex
    obtain ⟨k, hak, hkm, hrk⟩ := hex
    by_cases hr : ready a = true
    · refine ⟨a + 1, by omega, ?_⟩
      unfold waitFrom
      rw [hr]
      simp
    · have hne : k ≠ a := fun he => hr (he ▸ hrk)
      have hlt : ¬ m ≤ a + 1 := by omega
      have step : waitFrom ready m a = waitFrom ready m (a + 1) := by
        conv_lhs => rw [waitFrom.eq_def]
        rw [if_neg (by simpa using hr), if_neg hlt]
      rw [step]
      exact ih (a + 1) (by omega) ⟨k, by omega, hkm, hrk⟩

/-- C8 counterexample: with `max_attempts = 0` the script still performs
one connection probe before exiting, exceeding the claimed bound of at
most `max_attempts` probe attempts. -/
theorem waitFor_zero_attempts_counterexample :
    waitFor (fun _ => false) 0 = .notReady 0 1 ∧ ¬ (1 ≤ 0) := by
  constructor
  · unfold waitFor waitFrom
    simp
  · decide

/-- C8 (amended): the retry wait loop always terminates — for
`max_attempts ≥ 1`, if the target never becomes ready, the loop performs
exactly `max_attempts` probe attempts and exits with status 1 reporting
that attempt count; if the target becomes ready within the limit, the
loop exits with status 0 after at most `max_attempts` probes. -/
theorem waitFor_bounded_attempts (ready : Nat → Bool) (m k : Nat) :
    ((∀ i, ready i = false) → 1 ≤ m →
        waitFor ready m = .notReady m m ∧
        exitCode (.ran (waitFor ready m)) = 1) ∧
    (k < m → ready k = true →
        ∃ n, n ≤ m ∧ waitFor ready m = .isReady n ∧
          exitCode (.ran (waitFor ready m)) = 0) := by
  constructor
  · intro hnever hm
    have hrun : waitFor ready m = .notReady m m :=
      waitFrom_never_ready ready hnever m (m - 0) 0 rfl (by omega)
    exact ⟨hrun, by rw [hrun]; rfl⟩
  · intro hk hr
    obtain ⟨n, hn, hrun⟩ :=
      waitFrom_ready_within ready m (m - 0) 0 rfl ⟨k, by omega, hk, hr⟩
    have hrun2 : waitFor ready m = .isReady n := hrun
    exact ⟨n, hn, hrun2, by rw [hrun2]; rfl⟩

/-- Witness for C8 (amended): both branches at concrete probes — a
target that is never ready with two allowed attempts, and a target that
is ready at once. -/
theorem waitFor_bounded_attempts_witness :
    (waitFor (fun _ => false) 2 = .notReady 2 2 ∧
      exitCode (.ran (waitFor (fun _ => false) 2)) = 1) ∧
    (∃ n, n ≤ 2 ∧ waitFor (fun _ => true) 2 = .isReady n ∧
      exitCode (.ran (waitFor (fun _ => true) 2)) = 0) :=
  ⟨(waitFor_bounded_attempts (fun _ => false) 2 0).1 (fun _ => rfl) (by decide),
    (waitFor_bounded_attempts (fun _ => true) 2 0).2 (by decide) rfl⟩

/-- C10: if the host or the port argument is empty or missing, the
script prints the usage message and exits with status 1 before
performing any connection probe (the result does not depend on the probe
function at all); when the third argument is omitted, `max_attempts`
defaults to 10. -/
theorem waitForScript_validates_args (host port : String) (maxArg : Option Nat)
    (ready : Nat → Bool) :
    ((host = "" ∨ port = "") →
        waitForScript host port maxArg ready = .usage ∧
        exitCode (waitForScript host port maxArg ready) = 1) ∧
    (host ≠ "" → port ≠ "" →
        waitForScript host port none ready = .ran (waitFor ready 10)) := by
  constructor
  · intro h
    have hu : waitForScript host port maxArg ready = .usage := by
      simp [waitForScript, h]
    exact ⟨hu, by rw [hu]; rfl⟩
  · intro h1 h2
    simp [waitForScript, h1, h2]

/-- Witness for C10: an empty host yields the usage exit, and a call
without the third argument runs the loop with 10 attempts. -/
theorem waitForScript_validates_args_witness :
    (waitForScript ("") ("5432") (some 3) (fun _ => false) = .usage ∧
      exitCode (waitForScript ("") ("5432") (some 3) (fun _ => false)) = 1) ∧
    waitForScript ("db") ("5432") none (fun _ => false) =
      .ran (waitFor (fun _ => false) 10) :=
  ⟨(waitForScript_validates_args ("") ("5432") (some 3) (fun _ => false)).1 (Or.inl rfl),
    (waitForScript_validates_args ("db") ("5432") none (fun _ => false)).2
      (by decide) (by decide)⟩

/-- C9: the GET handler of the API info route is a constant function —
for every invocation and every ambient state it returns the same JSON
body, with versions `["v1"]` and the status/migrations endpoint paths,
and leaves the state untouched. -/
theorem GET_api_info_constant {S : Type} (s t : S) :
    (GET s).1 =
      { versions := ["v1"],
        endpoints := { status := "/api/v1/status", migrations := "/api/v1/migrations" } } ∧
    (GET s).2 = s ∧ (GET s).1 = (GET t).1 :=
  ⟨rfl, rfl, rfl⟩

end DealSmart
